import Mathlib

/-!
Verification of the GEX dashboard core against its specification.

Shallow embedding of:
- src/frontend/src/lib/market-regime.ts (regime classification)
- src/frontend/src/lib/strategy-guidance.ts (signal text lookup)
- src/frontend/src/components/dashboard/gex-chart.tsx (wall validity predicate)
- the cooldown-based revision of the useGEXAlerts hook (level-crossing alert
  monitor with a 5-minute per-level cooldown)

Prices and GEX totals are modelled as rationals, timestamps as integers
(milliseconds, as produced by a monotone clock). JavaScript
undefined/null option fields become Option; code that throws becomes
Except.
-/

namespace GexApp

/-! ## Market regime (market-regime.ts) -/

/-- Threshold for significant positive gamma, in dollars. -/
def GEX_THRESHOLD : ℚ := 1000000000

inductive MarketRegime where
  | POSITIVE
  | NEGATIVE
  | NEUTRAL
deriving DecidableEq, Repr

/-- Embedding of getRegimeLabel. -/
def getRegimeLabel (totalGex : ℚ) : MarketRegime :=
  if totalGex ≥ GEX_THRESHOLD then MarketRegime.POSITIVE
  else if totalGex ≤ -GEX_THRESHOLD then MarketRegime.NEGATIVE
  else MarketRegime.NEUTRAL

/-- Embedding of isPositiveGammaRegime. -/
def isPositiveGammaRegime (totalGex : ℚ) : Bool := totalGex ≥ GEX_THRESHOLD

/-- Embedding of isNegativeGammaRegime. -/
def isNegativeGammaRegime (totalGex : ℚ) : Bool := totalGex ≤ -GEX_THRESHOLD

/-- Embedding of isNeutralRegime. -/
def isNeutralRegime (totalGex : ℚ) : Bool :=
  !isPositiveGammaRegime totalGex && !isNegativeGammaRegime totalGex

/-! ## Strategy guidance (strategy-guidance.ts)

The TypeScript functions accept `StrategySignalType | string`, and callers can
in practice also hand them null or undefined, which the claims mention
explicitly. Inputs are therefore modelled as a string, null, or undefined. -/

inductive SignalInput where
  | strVal (s : String)
  | nullVal
  | undefVal
deriving DecidableEq, Repr, Inhabited

deriving instance DecidableEq for Except

/-- ASCII uppercase of one character, as String.prototype.toUpperCase acts on
the ASCII signal strings involved here. -/
def upChar (c : Char) : Char :=
  if 97 ≤ c.toNat ∧ c.toNat ≤ 122 then Char.ofNat (c.toNat - 32) else c

/-- ASCII uppercase of a string. -/
def upStr (s : String) : String := ⟨s.data.map upChar⟩

/-- Values of the StrategySignalType enum, in declaration order. -/
def validSignalStrings : List String :=
  ["MEAN_REVERSION", "ACCELERATION", "MAGNET_PIN"]

/-- Embedding of isValidSignal (membership in the enum values). -/
def isValidSignal (s : String) : Bool := decide (s ∈ validSignalStrings)

/-- Embedding of normalizeSignal: null/undefined map to null, a valid string
is returned as is, otherwise its uppercase form is tried, otherwise null. -/
def normalizeSignal : SignalInput → Option String
  | SignalInput.nullVal => none
  | SignalInput.undefVal => none
  | SignalInput.strVal s =>
    if isValidSignal s then some s
    else if isValidSignal (upStr s) then some (upStr s)
    else none

/-- Shared normalization step of the three lookup functions: a string that is
not already valid goes through normalizeSignal, a non-string value falls
through unchanged (and is then rejected by the falsiness check). -/
def resolveSignal (signal : SignalInput) : Option String :=
  match signal with
  | SignalInput.strVal s =>
    if !isValidSignal s then normalizeSignal signal else some s
  | _ => none

/-- Embedding of getTradingApproach; a throw becomes Except.error. -/
def getTradingApproach (signal : SignalInput) : Except String String :=
  match resolveSignal signal with
  | none => Except.error "Invalid signal type"
  | some s =>
    if !isValidSignal s then Except.error "Invalid signal type"
    else if s = "MEAN_REVERSION" then
      Except.ok "Fade breakouts. Sell OTM options. Target range midpoint."
    else if s = "ACCELERATION" then
      Except.ok "Trade breakouts. Buy straddles/strangles. Wide stops."
    else
      Except.ok "Expect consolidation near wall. Sell theta, avoid directional."

/-- Embedding of getRiskGuidance. -/
def getRiskGuidance (signal : SignalInput) : Except String String :=
  match resolveSignal signal with
  | none => Except.error "Invalid signal type"
  | some s =>
    if !isValidSignal s then Except.error "Invalid signal type"
    else if s = "MEAN_REVERSION" then
      Except.ok "Low - Confined range expected. Watch overnight gaps."
    else if s = "ACCELERATION" then
      Except.ok "High - Volatile. Use smaller position sizes."
    else
      Except.ok "Medium - Risk of late-day volatility if wall breaks."

/-- Embedding of getTimeHorizon. -/
def getTimeHorizon (signal : SignalInput) : Except String String :=
  match resolveSignal signal with
  | none => Except.error "Invalid signal type"
  | some s =>
    if !isValidSignal s then Except.error "Invalid signal type"
    else if s = "MEAN_REVERSION" then
      Except.ok "Intraday to 1-3 days (within DTE window)"
    else if s = "ACCELERATION" then
      Except.ok "Same day - momentum exhaustion can be rapid"
    else
      Except.ok "Into market close (typically after 2 PM)"

structure StrategyGuidance where
  approach : String
  risk : String
  timeHorizon : String
deriving DecidableEq, Repr

/-- Embedding of getAllGuidance: calls the three lookups; a throw in any of
them propagates. -/
def getAllGuidance (signal : SignalInput) : Except String StrategyGuidance := do
  let a ← getTradingApproach signal
  let r ← getRiskGuidance signal
  let h ← getTimeHorizon signal
  Except.ok ⟨a, r, h⟩

/-- True when the embedded lookup rejected its input. -/
def throwsError {α : Type} : Except String α → Bool
  | Except.error _ => true
  | Except.ok _ => false

/-- Inputs the lookup functions accept: strings whose uppercase form is a
member of the signal enumeration. -/
def acceptedSignal : SignalInput → Bool
  | SignalInput.strVal s => isValidSignal (upStr s)
  | _ => false

/-! ## Wall validity (gex-chart.tsx) -/

/-- JavaScript falsiness of an optional number: undefined, null and 0 are
falsy. -/
def jsFalsyNum : Option ℚ → Bool
  | none => true
  | some x => x == 0

/-- Embedding of isValidWallConfig: a missing (falsy) wall is always valid,
otherwise the put wall must lie strictly below the call wall. -/
def isValidWallConfig (callWall putWall : Option ℚ) : Bool :=
  if jsFalsyNum callWall || jsFalsyNum putWall then true
  else decide (putWall.getD 0 < callWall.getD 0)

/-- Render condition of the expected-range ReferenceArea in GEXChart:
isValidWallConfig together with both walls truthy. -/
def renderExpectedRange (callWall putWall : Option ℚ) : Bool :=
  isValidWallConfig callWall putWall && !jsFalsyNum putWall && !jsFalsyNum callWall

/-! ## Level-crossing alert monitor (useGEXAlerts, cooldown-based revision) -/

/-- Cooldown per level, in milliseconds (5 minutes). -/
def ALERT_COOLDOWN_MS : ℤ := 300000

inductive CrossDirection where
  | above
  | below
deriving DecidableEq, Repr

/-- Shape of one emitted alert (the toast message is determined by these
fields). -/
structure AlertEvent where
  symbol : String
  levelName : String
  direction : CrossDirection
  level : ℚ
deriving DecidableEq, Repr

/-- Embedding of checkCross. The lastTriggered record becomes an association
list from level name to timestamp; the JavaScript read
`lastTriggeredRef.current[name] || 0` becomes a lookup with default 0.
Returns the updated record and the emitted event, if any. -/
def checkCross (symbol : String) (prevSpot spotPrice : ℚ) (now : ℤ)
    (lastTriggered : List (String × ℤ)) (level : Option ℚ) (name : String) :
    List (String × ℤ) × Option AlertEvent :=
  match level with
  | none => (lastTriggered, none)
  | some l =>
    if now - ((lastTriggered.lookup name).getD 0) < ALERT_COOLDOWN_MS then
      (lastTriggered, none)
    else if prevSpot < l ∧ l ≤ spotPrice then
      ((name, now) :: lastTriggered, some ⟨symbol, name, CrossDirection.above, l⟩)
    else if prevSpot > l ∧ spotPrice ≤ l then
      ((name, now) :: lastTriggered, some ⟨symbol, name, CrossDirection.below, l⟩)
    else (lastTriggered, none)

/-- Mutable state of the hook between effect runs: prevSpotRef and
lastTriggeredRef. -/
structure MonitorState where
  prevSpot : ℚ
  lastTriggered : List (String × ℤ)
deriving DecidableEq, Repr

/-- One run of the effect: the props it sees (symbol, spot price, the three
levels), the clock value, and whether alerts are enabled at that moment. -/
structure TickInput where
  symbol : String
  spotPrice : ℚ
  callWall : Option ℚ
  putWall : Option ℚ
  zeroGamma : Option ℚ
  now : ℤ
  alertsEnabled : Bool
deriving DecidableEq, Repr, Inhabited

/-- Embedding of the effect body: when alerts are disabled only prevSpot is
refreshed; otherwise the three levels are checked in source order (Zero
Gamma, Call Wall, Put Wall) against the same previous price, and prevSpot is
updated unconditionally at the end. -/
def processTick (s : MonitorState) (t : TickInput) : MonitorState × List AlertEvent :=
  if !t.alertsEnabled then ({ s with prevSpot := t.spotPrice }, [])
  else
    let r1 := checkCross t.symbol s.prevSpot t.spotPrice t.now s.lastTriggered t.zeroGamma "Zero Gamma"
    let r2 := checkCross t.symbol s.prevSpot t.spotPrice t.now r1.1 t.callWall "Call Wall"
    let r3 := checkCross t.symbol s.prevSpot t.spotPrice t.now r2.1 t.putWall "Put Wall"
    (⟨t.spotPrice, r3.1⟩, [r1.2, r2.2, r3.2].filterMap id)

/-- Initial hook state: prevSpotRef seeded with the first observed price,
lastTriggeredRef empty. -/
def initState (p0 : ℚ) : MonitorState := ⟨p0, []⟩

/-- Per-tick event lists of a whole run of the monitor. -/
def runOutputs : MonitorState → List TickInput → List (List AlertEvent)
  | _, [] => []
  | s, t :: ts =>
    let r := processTick s t
    r.2 :: runOutputs r.1 ts

/-- True when the event list contains an alert for the given level name. -/
def emitsFor (evs : List AlertEvent) (name : String) : Bool :=
  evs.any fun e => e.levelName == name

/-- Concrete tick crossing both the zero-gamma level and the call wall. -/
def tickBothLevels : TickInput := ⟨"SPY", 105, some 103, none, some 101, 1000000, true⟩

/-- Concrete state with no cooldown entries and a previous price of 100. -/
def stateFresh : MonitorState := ⟨100, []⟩

/-- Concrete tick crossing the zero-gamma level 100 seconds after an alert. -/
def tickInCooldown : TickInput := ⟨"SPY", 105, none, none, some 101, 1000000, true⟩

/-- Concrete state whose Zero Gamma level triggered at time 900000. -/
def stateRecentTrigger : MonitorState := ⟨100, [("Zero Gamma", 900000)]⟩

/-! ## Helper lemmas -/

theorem lookup_cons_self (name : String) (v : ℤ) (lt : List (String × ℤ)) :
    (((name, v) :: lt).lookup name) = some v := by
  simp [List.lookup]

theorem lookup_cons_other {name name' : String} (h : name' ≠ name) (v : ℤ)
    (lt : List (String × ℤ)) :
    (((name, v) :: lt).lookup name') = lt.lookup name' := by
  have hb : (name' == name) = false := beq_eq_false_iff_ne.mpr h
  simp [List.lookup, hb]

theorem checkCross_state_of_none {sym : String} {prev p : ℚ} {now : ℤ}
    {lt : List (String × ℤ)} {lvl : Option ℚ} {name : String}
    (h : (checkCross sym prev p now lt lvl name).2 = none) :
    (checkCross sym prev p now lt lvl name).1 = lt := by
  cases lvl with
  | none => rfl
  | some l =>
    simp only [checkCross] at h ⊢
    split_ifs at h ⊢ <;> simp_all

theorem checkCross_some {sym : String} {prev p : ℚ} {now : ℤ}
    {lt : List (String × ℤ)} {lvl : Option ℚ} {name : String} {ev : AlertEvent}
    (h : (checkCross sym prev p now lt lvl name).2 = some ev) :
    ev.levelName = name ∧ ev.symbol = sym ∧
      ALERT_COOLDOWN_MS ≤ now - ((lt.lookup name).getD 0) ∧
      (checkCross sym prev p now lt lvl name).1 = (name, now) :: lt := by
  cases lvl with
  | none => simp [checkCross] at h
  | some l =>
    simp only [checkCross] at h ⊢
    split_ifs at h ⊢ with h1 h2 h3 <;>
      (simp only [Option.some.injEq] at h
       subst h
       exact ⟨rfl, rfl, not_lt.mp h1, rfl⟩)

theorem checkCross_emits_above (sym name : String) (prev p l : ℚ) (now : ℤ)
    (lt : List (String × ℤ))
    (hcool : ALERT_COOLDOWN_MS ≤ now - ((lt.lookup name).getD 0))
    (h1 : prev < l) (h2 : l ≤ p) :
    checkCross sym prev p now lt (some l) name =
      ((name, now) :: lt, some ⟨sym, name, CrossDirection.above, l⟩) := by
  simp only [checkCross]
  rw [if_neg (not_lt.mpr hcool), if_pos ⟨h1, h2⟩]

theorem checkCross_emits_below (sym name : String) (prev p l : ℚ) (now : ℤ)
    (lt : List (String × ℤ))
    (hcool : ALERT_COOLDOWN_MS ≤ now - ((lt.lookup name).getD 0))
    (h1 : prev > l) (h2 : p ≤ l) :
    checkCross sym prev p now lt (some l) name =
      ((name, now) :: lt, some ⟨sym, name, CrossDirection.below, l⟩) := by
  simp only [checkCross]
  rw [if_neg (not_lt.mpr hcool), if_neg, if_pos ⟨h1, h2⟩]
  rintro ⟨ha, _⟩
  exact absurd h1 (not_lt.mpr ha.le)

theorem checkCross_lookup_preserved {sym : String} {prev p : ℚ} {now : ℤ}
    {lt : List (String × ℤ)} {lvl : Option ℚ} {name name' : String}
    (h : name' ≠ name) :
    ((checkCross sym prev p now lt lvl name).1.lookup name') = lt.lookup name' := by
  cases hev : (checkCross sym prev p now lt lvl name).2 with
  | none => rw [checkCross_state_of_none hev]
  | some ev =>
    rw [(checkCross_some hev).2.2.2]
    exact lookup_cons_other h _ _

theorem processTick_prevSpot (s : MonitorState) (t : TickInput) :
    (processTick s t).1.prevSpot = t.spotPrice := by
  cases hE : t.alertsEnabled <;> simp [processTick, hE]

theorem emitsFor_three {o1 o2 o3 : Option AlertEvent} {name : String} :
    emitsFor ([o1, o2, o3].filterMap id) name = true ↔
      (∃ ev, o1 = some ev ∧ ev.levelName = name) ∨
      (∃ ev, o2 = some ev ∧ ev.levelName = name) ∨
      (∃ ev, o3 = some ev ∧ ev.levelName = name) := by
  cases o1 <;> cases o2 <;> cases o3 <;> simp [emitsFor]

theorem processTick_emits {s : MonitorState} {t : TickInput} {name : String}
    (h : emitsFor (processTick s t).2 name = true) :
    ALERT_COOLDOWN_MS ≤ t.now - ((s.lastTriggered.lookup name).getD 0) ∧
      ((processTick s t).1.lastTriggered.lookup name) = some t.now := by
  cases hE : t.alertsEnabled with
  | false => simp [processTick, hE, emitsFor] at h
  | true =>
    simp only [processTick, hE, Bool.not_true, Bool.false_eq_true, if_false] at h ⊢
    rcases emitsFor_three.mp h with ⟨ev, hev, hn⟩ | ⟨ev, hev, hn⟩ | ⟨ev, hev, hn⟩
    · obtain ⟨hln, -, hcool, hst⟩ := checkCross_some hev
      rw [← hn, hln]
      refine ⟨hcool, ?_⟩
      rw [checkCross_lookup_preserved (by decide), checkCross_lookup_preserved (by decide),
        hst, lookup_cons_self]
    · obtain ⟨hln, -, hcool, hst⟩ := checkCross_some hev
      rw [← hn, hln]
      rw [checkCross_lookup_preserved (show ("Call Wall" : String) ≠ "Zero Gamma" by decide)]
        at hcool
      refine ⟨hcool, ?_⟩
      rw [checkCross_lookup_preserved (by decide), hst, lookup_cons_self]
    · obtain ⟨hln, -, hcool, hst⟩ := checkCross_some hev
      rw [← hn, hln]
      rw [checkCross_lookup_preserved (show ("Put Wall" : String) ≠ "Call Wall" by decide),
        checkCross_lookup_preserved (show ("Put Wall" : String) ≠ "Zero Gamma" by decide)]
        at hcool
      refine ⟨hcool, ?_⟩
      rw [hst, lookup_cons_self]

theorem processTick_lookup_of_not_emits {s : MonitorState} {t : TickInput} {name : String}
    (h : emitsFor (processTick s t).2 name = false) :
    ((processTick s t).1.lastTriggered.lookup name) = s.lastTriggered.lookup name := by
  cases hE : t.alertsEnabled with
  | false => simp [processTick, hE]
  | true =>
    simp only [processTick, hE, Bool.not_true, Bool.false_eq_true, if_false] at h ⊢
    set A := checkCross t.symbol s.prevSpot t.spotPrice t.now s.lastTriggered
      t.zeroGamma "Zero Gamma" with hAdef
    set B := checkCross t.symbol s.prevSpot t.spotPrice t.now A.1
      t.callWall "Call Wall" with hBdef
    set C := checkCross t.symbol s.prevSpot t.spotPrice t.now B.1
      t.putWall "Put Wall" with hCdef
    have hnot : ∀ ev : AlertEvent, ev.levelName = name →
        A.2 ≠ some ev ∧ B.2 ≠ some ev ∧ C.2 ≠ some ev := by
      intro ev hn
      refine ⟨fun hev => ?_, fun hev => ?_, fun hev => ?_⟩
      · have hh : emitsFor ([A.2, B.2, C.2].filterMap id) name = true :=
          emitsFor_three.mpr (Or.inl ⟨ev, hev, hn⟩)
        rw [h] at hh
        exact Bool.false_ne_true hh
      · have hh : emitsFor ([A.2, B.2, C.2].filterMap id) name = true :=
          emitsFor_three.mpr (Or.inr (Or.inl ⟨ev, hev, hn⟩))
        rw [h] at hh
        exact Bool.false_ne_true hh
      · have hh : emitsFor ([A.2, B.2, C.2].filterMap id) name = true :=
          emitsFor_three.mpr (Or.inr (Or.inr ⟨ev, hev, hn⟩))
        rw [h] at hh
        exact Bool.false_ne_true hh
    have stepA : A.1.lookup name = s.lastTriggered.lookup name := by
      by_cases hz : name = "Zero Gamma"
      · subst hz
        cases hev : A.2 with
        | none => rw [hAdef] at hev ⊢; rw [checkCross_state_of_none hev]
        | some ev => exact absurd hev ((hnot ev (checkCross_some (hAdef ▸ hev)).1).1)
      · rw [hAdef]
        exact checkCross_lookup_preserved hz
    have stepB : B.1.lookup name = A.1.lookup name := by
      by_cases hz : name = "Call Wall"
      · subst hz
        cases hev : B.2 with
        | none => rw [hBdef] at hev ⊢; rw [checkCross_state_of_none hev]
        | some ev => exact absurd hev ((hnot ev (checkCross_some (hBdef ▸ hev)).1).2.1)
      · rw [hBdef]
        exact checkCross_lookup_preserved hz
    have stepC : C.1.lookup name = B.1.lookup name := by
      by_cases hz : name = "Put Wall"
      · subst hz
        cases hev : C.2 with
        | none => rw [hCdef] at hev ⊢; rw [checkCross_state_of_none hev]
        | some ev => exact absurd hev ((hnot ev (checkCross_some (hCdef ▸ hev)).1).2.2)
      · rw [hCdef]
        exact checkCross_lookup_preserved hz
    rw [stepC, stepB, stepA]

theorem cooldown_nonneg : (0 : ℤ) ≤ ALERT_COOLDOWN_MS := by decide

theorem run_emit_time (name : String) (ins : List TickInput) :
    ∀ (s : MonitorState) (j : ℕ),
      emitsFor ((runOutputs s ins).getD j []) name = true →
      ((s.lastTriggered.lookup name).getD 0) + ALERT_COOLDOWN_MS ≤
        (ins.getD j default).now := by
  induction ins with
  | nil =>
    intro s j h
    simp [runOutputs, List.getD, emitsFor] at h
  | cons t ts ih =>
    intro s j h
    cases j with
    | zero =>
      have h0 : emitsFor (processTick s t).2 name = true := by
        simpa [runOutputs, List.getD] using h
      have hc := (processTick_emits h0).1
      simp only [List.getD_cons_zero]
      linarith
    | succ j =>
      have h1 : emitsFor ((runOutputs (processTick s t).1 ts).getD j []) name = true := by
        simpa [runOutputs, List.getD] using h
      have hstep := ih (processTick s t).1 j h1
      simp only [List.getD_cons_succ]
      cases hem : emitsFor (processTick s t).2 name with
      | false =>
        rw [processTick_lookup_of_not_emits hem] at hstep
        exact hstep
      | true =>
        have h2 := processTick_emits hem
        rw [h2.2] at hstep
        simp only [Option.getD_some] at hstep
        have h3 := h2.1
        have h4 := cooldown_nonneg
        linarith

theorem run_separation (name : String) (ins : List TickInput) :
    ∀ (s : MonitorState) (i j : ℕ), i < j →
      emitsFor ((runOutputs s ins).getD i []) name = true →
      emitsFor ((runOutputs s ins).getD j []) name = true →
      ALERT_COOLDOWN_MS ≤ (ins.getD j default).now - (ins.getD i default).now := by
  induction ins with
  | nil =>
    intro s i j hij hi hj
    simp [runOutputs, List.getD, emitsFor] at hi
  | cons t ts ih =>
    intro s i j hij hi hj
    cases i with
    | zero =>
      cases j with
      | zero => omega
      | succ j =>
        have hi0 : emitsFor (processTick s t).2 name = true := by
          simpa [runOutputs, List.getD] using hi
        have hj1 : emitsFor ((runOutputs (processTick s t).1 ts).getD j []) name = true := by
          simpa [runOutputs, List.getD] using hj
        have htime := run_emit_time name ts (processTick s t).1 j hj1
        have h2 := processTick_emits hi0
        rw [h2.2] at htime
        simp only [Option.getD_some] at htime
        simp only [List.getD_cons_zero, List.getD_cons_succ]
        linarith
    | succ i =>
      cases j with
      | zero => omega
      | succ j =>
        have hi1 : emitsFor ((runOutputs (processTick s t).1 ts).getD i []) name = true := by
          simpa [runOutputs, List.getD] using hi
        have hj1 : emitsFor ((runOutputs (processTick s t).1 ts).getD j []) name = true := by
          simpa [runOutputs, List.getD] using hj
        have hsep := ih (processTick s t).1 i j (by omega) hi1 hj1
        simpa [List.getD_cons_succ] using hsep

theorem valid_upStr_self {s : String} (h : isValidSignal s = true) : upStr s = s := by
  unfold isValidSignal at h
  rw [decide_eq_true_eq] at h
  simp only [validSignalStrings, List.mem_cons, List.not_mem_nil, or_false] at h
  rcases h with h | h | h <;> subst h <;> decide

theorem resolveSignal_valid {signal : SignalInput} {s : String}
    (h : resolveSignal signal = some s) : isValidSignal s = true := by
  cases signal with
  | nullVal => simp [resolveSignal] at h
  | undefVal => simp [resolveSignal] at h
  | strVal str =>
    cases hv : isValidSignal str with
    | true =>
      simp [resolveSignal, hv] at h
      subst h
      exact hv
    | false =>
      cases hu : isValidSignal (upStr str) with
      | true =>
        simp [resolveSignal, normalizeSignal, hv, hu] at h
        subst h
        exact hu
      | false => simp [resolveSignal, normalizeSignal, hv, hu] at h

theorem resolveSignal_isSome (signal : SignalInput) :
    (resolveSignal signal).isSome = acceptedSignal signal := by
  cases signal with
  | nullVal => rfl
  | undefVal => rfl
  | strVal s =>
    cases hv : isValidSignal s with
    | true =>
      have hup : upStr s = s := valid_upStr_self hv
      simp [resolveSignal, acceptedSignal, hv, hup]
    | false =>
      cases hu : isValidSignal (upStr s) with
      | true => simp [resolveSignal, normalizeSignal, acceptedSignal, hv, hu]
      | false => simp [resolveSignal, normalizeSignal, acceptedSignal, hv, hu]

theorem throws_shape (a b c : String) (signal : SignalInput) :
    throwsError
      (match resolveSignal signal with
       | none => Except.error "Invalid signal type"
       | some s =>
         if !isValidSignal s then Except.error "Invalid signal type"
         else if s = "MEAN_REVERSION" then Except.ok a
         else if s = "ACCELERATION" then Except.ok b
         else Except.ok c) = !acceptedSignal signal := by
  cases hr : resolveSignal signal with
  | none =>
    have ha : acceptedSignal signal = false := by
      rw [← resolveSignal_isSome signal, hr]
      rfl
    simp [throwsError, ha]
  | some s =>
    have hv : isValidSignal s = true := resolveSignal_valid hr
    have ha : acceptedSignal signal = true := by
      rw [← resolveSignal_isSome signal, hr]
      rfl
    simp only [hv, Bool.not_true, Bool.false_eq_true, if_false, ha]
    split_ifs <;> rfl

theorem ok_of_not_throws {α : Type} {x : Except String α}
    (h : throwsError x = false) : ∃ v, x = Except.ok v := by
  cases x with
  | error e => simp [throwsError] at h
  | ok v => exact ⟨v, rfl⟩

theorem error_of_throws {α : Type} {x : Except String α}
    (h : throwsError x = true) : ∃ e, x = Except.error e := by
  cases x with
  | error e => exact ⟨e, rfl⟩
  | ok v => simp [throwsError] at h

/-! ## Claim theorems -/

/-- C1: for one level evaluation of the cooldown-based monitor with the level
defined and not in cooldown, a crossed-above event is emitted iff
prev < L and p ≥ L, a crossed-below event iff prev > L and p ≤ L, and no
event otherwise; in particular no event when prev = p. -/
theorem checkCross_event_characterization (sym name : String) (prev p l : ℚ)
    (now : ℤ) (lt : List (String × ℤ))
    (hcool : ¬ (now - ((lt.lookup name).getD 0) < ALERT_COOLDOWN_MS)) :
    (((checkCross sym prev p now lt (some l) name).2 =
        some ⟨sym, name, CrossDirection.above, l⟩) ↔ (prev < l ∧ l ≤ p)) ∧
    (((checkCross sym prev p now lt (some l) name).2 =
        some ⟨sym, name, CrossDirection.below, l⟩) ↔ (prev > l ∧ p ≤ l)) ∧
    (¬ (prev < l ∧ l ≤ p) → ¬ (prev > l ∧ p ≤ l) →
      (checkCross sym prev p now lt (some l) name).2 = none) ∧
    (prev = p → (checkCross sym prev p now lt (some l) name).2 = none) := by
  simp only [checkCross]
  rw [if_neg hcool]
  split_ifs with hb hs
  · refine ⟨iff_of_true rfl hb, ?_, ?_, ?_⟩
    · refine iff_of_false (by simp) fun hc => ?_
      exact absurd hb.1 (not_lt.mpr hc.1.le)
    · intro h1 _
      exact absurd hb h1
    · intro he
      subst he
      exact absurd (lt_of_lt_of_le hb.1 hb.2) (lt_irrefl _)
  · refine ⟨?_, iff_of_true rfl hs, ?_, ?_⟩
    · refine iff_of_false (by simp) fun hc => ?_
      exact absurd hs.1 (not_lt.mpr hc.1.le)
    · intro _ h2
      exact absurd hs h2
    · intro he
      subst he
      exact absurd (lt_of_le_of_lt hs.2 hs.1) (lt_irrefl _)
  · exact ⟨iff_of_false (by simp) hb, iff_of_false (by simp) hs,
      fun _ _ => rfl, fun _ => rfl⟩

/-- Witness for C1 at a concrete bullish crossing. -/
theorem checkCross_event_characterization_witness :
    (¬ ((1000000 : ℤ) - ((([] : List (String × ℤ)).lookup "Call Wall").getD 0) <
        ALERT_COOLDOWN_MS)) ∧
    ((((checkCross "SPY" 99 101 1000000 [] (some 100) "Call Wall").2 =
        some ⟨"SPY", "Call Wall", CrossDirection.above, 100⟩) ↔
        ((99 : ℚ) < 100 ∧ (100 : ℚ) ≤ 101)) ∧
     (((checkCross "SPY" 99 101 1000000 [] (some 100) "Call Wall").2 =
        some ⟨"SPY", "Call Wall", CrossDirection.below, 100⟩) ↔
        ((99 : ℚ) > 100 ∧ (101 : ℚ) ≤ 100)) ∧
     (¬ ((99 : ℚ) < 100 ∧ (100 : ℚ) ≤ 101) → ¬ ((99 : ℚ) > 100 ∧ (101 : ℚ) ≤ 100) →
        (checkCross "SPY" 99 101 1000000 [] (some 100) "Call Wall").2 = none) ∧
     ((99 : ℚ) = 101 →
        (checkCross "SPY" 99 101 1000000 [] (some 100) "Call Wall").2 = none)) :=
  ⟨by decide,
    checkCross_event_characterization "SPY" "Call Wall" 99 101 100 1000000 [] (by decide)⟩

/-- C3: the regime classifier maps totals at or above the one-billion-dollar
threshold to POSITIVE_GAMMA, totals at or below its negation to
NEGATIVE_GAMMA, and everything strictly between to NEUTRAL; both boundary
values classify non-neutral. -/
theorem regime_threshold_classification :
    GEX_THRESHOLD = 1000000000 ∧
    (∀ x : ℚ, (getRegimeLabel x = MarketRegime.POSITIVE ↔ GEX_THRESHOLD ≤ x)) ∧
    (∀ x : ℚ, (getRegimeLabel x = MarketRegime.NEGATIVE ↔ x ≤ -GEX_THRESHOLD)) ∧
    (∀ x : ℚ, (getRegimeLabel x = MarketRegime.NEUTRAL ↔
        (-GEX_THRESHOLD < x ∧ x < GEX_THRESHOLD))) ∧
    getRegimeLabel GEX_THRESHOLD = MarketRegime.POSITIVE ∧
    getRegimeLabel (-GEX_THRESHOLD) = MarketRegime.NEGATIVE := by
  have hTT : -GEX_THRESHOLD < GEX_THRESHOLD := by decide
  refine ⟨rfl, fun x => ?_, fun x => ?_, fun x => ?_, by decide, by decide⟩
  · unfold getRegimeLabel
    split_ifs with h1 h2
    · exact iff_of_true rfl h1
    · exact iff_of_false (by simp) fun hc => by linarith
    · exact iff_of_false (by simp) h1
  · unfold getRegimeLabel
    split_ifs with h1 h2
    · exact iff_of_false (by simp) fun hc => by linarith
    · exact iff_of_true rfl h2
    · exact iff_of_false (by simp) h2
  · unfold getRegimeLabel
    split_ifs with h1 h2
    · exact iff_of_false (by simp) fun hc => by linarith [hc.2]
    · exact iff_of_false (by simp) fun hc => by linarith [hc.1]
    · exact iff_of_true rfl ⟨not_le.mp h2, not_le.mp h1⟩

/-- C5: for every total, exactly one of the three regime predicates holds,
and the holding predicate agrees with getRegimeLabel. -/
theorem regime_predicates_partition :
    ∀ x : ℚ,
      ((isPositiveGammaRegime x = true ∧ isNegativeGammaRegime x = false ∧
          isNeutralRegime x = false) ∨
       (isPositiveGammaRegime x = false ∧ isNegativeGammaRegime x = true ∧
          isNeutralRegime x = false) ∨
       (isPositiveGammaRegime x = false ∧ isNegativeGammaRegime x = false ∧
          isNeutralRegime x = true)) ∧
      (isPositiveGammaRegime x = true ↔ getRegimeLabel x = MarketRegime.POSITIVE) ∧
      (isNegativeGammaRegime x = true ↔ getRegimeLabel x = MarketRegime.NEGATIVE) ∧
      (isNeutralRegime x = true ↔ getRegimeLabel x = MarketRegime.NEUTRAL) := by
  intro x
  have hTT : -GEX_THRESHOLD < GEX_THRESHOLD := by decide
  by_cases hp : GEX_THRESHOLD ≤ x
  · have hn : ¬ (x ≤ -GEX_THRESHOLD) := by linarith
    simp [isPositiveGammaRegime, isNegativeGammaRegime, isNeutralRegime,
      getRegimeLabel, hp, hn]
  · by_cases hn : x ≤ -GEX_THRESHOLD
    · simp [isPositiveGammaRegime, isNegativeGammaRegime, isNeutralRegime,
        getRegimeLabel, hp, hn]
    · simp [isPositiveGammaRegime, isNegativeGammaRegime, isNeutralRegime,
        getRegimeLabel, hp, hn]

/-- C6: after every processed tick the stored previous price equals the
price of that tick, unconditionally, including ticks seen while alerts are
disabled and ticks skipped by cooldown. -/
theorem prev_price_unconditional_update :
    ∀ (s : MonitorState) (t : TickInput), (processTick s t).1.prevSpot = t.spotPrice :=
  fun s t => processTick_prevSpot s t

/-- Witness for C3 at a concrete total. -/
theorem regime_threshold_classification_witness :
    getRegimeLabel 1500000000 = MarketRegime.POSITIVE ↔
      GEX_THRESHOLD ≤ (1500000000 : ℚ) :=
  regime_threshold_classification.2.1 1500000000

/-- Witness for C5 at a concrete total. -/
theorem regime_predicates_partition_witness :
    ((isPositiveGammaRegime 0 = true ∧ isNegativeGammaRegime 0 = false ∧
        isNeutralRegime 0 = false) ∨
     (isPositiveGammaRegime 0 = false ∧ isNegativeGammaRegime 0 = true ∧
        isNeutralRegime 0 = false) ∨
     (isPositiveGammaRegime 0 = false ∧ isNegativeGammaRegime 0 = false ∧
        isNeutralRegime 0 = true)) ∧
    (isPositiveGammaRegime 0 = true ↔ getRegimeLabel 0 = MarketRegime.POSITIVE) ∧
    (isNegativeGammaRegime 0 = true ↔ getRegimeLabel 0 = MarketRegime.NEGATIVE) ∧
    (isNeutralRegime 0 = true ↔ getRegimeLabel 0 = MarketRegime.NEUTRAL) :=
  regime_predicates_partition 0

/-- Witness for C6 at a concrete state and tick. -/
theorem prev_price_unconditional_update_witness :
    (processTick stateRecentTrigger tickInCooldown).1.prevSpot =
      tickInCooldown.spotPrice :=
  prev_price_unconditional_update stateRecentTrigger tickInCooldown

/-- C2: in any run of the monitor from the initial state, two alerts for the
same level are at least one cooldown window apart (so a second crossing
inside the 5-minute window emits nothing); the previous price is still
updated on every tick; and a crossing evaluated once the window has elapsed
does emit a new alert. -/
theorem alert_cooldown_window :
    (∀ (p0 : ℚ) (ins : List TickInput) (i j : ℕ) (name : String),
      i < j →
      emitsFor ((runOutputs (initState p0) ins).getD i []) name = true →
      emitsFor ((runOutputs (initState p0) ins).getD j []) name = true →
      ALERT_COOLDOWN_MS ≤ (ins.getD j default).now - (ins.getD i default).now) ∧
    (∀ (s : MonitorState) (t : TickInput),
      (processTick s t).1.prevSpot = t.spotPrice) ∧
    (∀ (sym name : String) (prev p l : ℚ) (now : ℤ) (lt : List (String × ℤ)),
      ALERT_COOLDOWN_MS ≤ now - ((lt.lookup name).getD 0) →
      prev < l → l ≤ p →
      (checkCross sym prev p now lt (some l) name).2 =
        some ⟨sym, name, CrossDirection.above, l⟩) := by
  refine ⟨fun p0 ins i j name hij hi hj =>
      run_separation name ins (initState p0) i j hij hi hj,
    fun s t => processTick_prevSpot s t,
    fun sym name prev p l now lt hcool h1 h2 => ?_⟩
  rw [checkCross_emits_above sym name prev p l now lt hcool h1 h2]

/-- Witness for C2: a run with two Zero Gamma alerts exactly one window
apart, a prevSpot update, and an emission after the window elapsed. -/
theorem alert_cooldown_window_witness :
    ((0 < 1) ∧
     emitsFor ((runOutputs (initState 100)
        [⟨"SPY", 102, none, none, some 101, 1000000, true⟩,
         ⟨"SPY", 99, none, none, some 101, 1300000, true⟩]).getD 0 [])
        "Zero Gamma" = true ∧
     emitsFor ((runOutputs (initState 100)
        [⟨"SPY", 102, none, none, some 101, 1000000, true⟩,
         ⟨"SPY", 99, none, none, some 101, 1300000, true⟩]).getD 1 [])
        "Zero Gamma" = true ∧
     ALERT_COOLDOWN_MS ≤
       ((([⟨"SPY", 102, none, none, some 101, 1000000, true⟩,
           ⟨"SPY", 99, none, none, some 101, 1300000, true⟩] :
           List TickInput).getD 1 default).now -
        (([⟨"SPY", 102, none, none, some 101, 1000000, true⟩,
           ⟨"SPY", 99, none, none, some 101, 1300000, true⟩] :
           List TickInput).getD 0 default).now)) ∧
    ((processTick (initState 100)
        ⟨"SPY", 102, none, none, some 101, 1000000, true⟩).1.prevSpot = 102) ∧
    (ALERT_COOLDOWN_MS ≤
        (1000000 : ℤ) - ((([] : List (String × ℤ)).lookup "Zero Gamma").getD 0) ∧
     (99 : ℚ) < 101 ∧ (101 : ℚ) ≤ 102 ∧
     (checkCross "SPY" 99 102 1000000 [] (some 101) "Zero Gamma").2 =
       some ⟨"SPY", "Zero Gamma", CrossDirection.above, 101⟩) :=
  ⟨⟨by decide, by decide, by decide,
     alert_cooldown_window.1 100
       [⟨"SPY", 102, none, none, some 101, 1000000, true⟩,
        ⟨"SPY", 99, none, none, some 101, 1300000, true⟩]
       0 1 "Zero Gamma" (by decide) (by decide) (by decide)⟩,
   alert_cooldown_window.2.1 (initState 100)
     ⟨"SPY", 102, none, none, some 101, 1000000, true⟩,
   ⟨by decide, by decide, by decide,
     alert_cooldown_window.2.2 "SPY" "Zero Gamma" 99 102 101 1000000 []
       (by decide) (by decide) (by decide)⟩⟩

/-- C7 counterexample: with the cooldown record keyed by level name only, a
Zero Gamma alert observed for SPY suppresses a genuine Zero Gamma crossing
observed for QQQ one minute later; the same QQQ tick emits when run without
the SPY alert in the record. -/
theorem cooldown_cross_symbol_cex :
    runOutputs (initState 100)
      [⟨"SPY", 102, none, none, some 101, 1000000, true⟩,
       ⟨"QQQ", 99, none, none, some 101, 1060000, true⟩] =
      [[⟨"SPY", "Zero Gamma", CrossDirection.above, 101⟩], []] ∧
    ((102 : ℚ) > 101 ∧ (99 : ℚ) ≤ 101) ∧
    ("SPY" ≠ "QQQ") ∧
    runOutputs (initState 102)
      [⟨"QQQ", 99, none, none, some 101, 1060000, true⟩] =
      [[⟨"QQQ", "Zero Gamma", CrossDirection.below, 101⟩]] := by
  decide

/-- C7 (amended): cooldown suppression is keyed by level name only:
different level names never suppress each other, and simultaneous crossings
of two levels both emit when neither name is in cooldown; a cooldown entry
for a level name suppresses the next alert for that name regardless of the
symbol observed. -/
theorem cooldown_per_level_independence :
    (∀ (s : MonitorState) (t : TickInput) (l1 l2 : ℚ),
      t.alertsEnabled = true → t.zeroGamma = some l1 → t.callWall = some l2 →
      ALERT_COOLDOWN_MS ≤ t.now - ((s.lastTriggered.lookup "Zero Gamma").getD 0) →
      ALERT_COOLDOWN_MS ≤ t.now - ((s.lastTriggered.lookup "Call Wall").getD 0) →
      s.prevSpot < l1 → l1 ≤ t.spotPrice → s.prevSpot < l2 → l2 ≤ t.spotPrice →
      emitsFor (processTick s t).2 "Zero Gamma" = true ∧
        emitsFor (processTick s t).2 "Call Wall" = true) ∧
    (∀ (s : MonitorState) (t : TickInput) (name : String) (t0 : ℤ),
      s.lastTriggered.lookup name = some t0 →
      t.now - t0 < ALERT_COOLDOWN_MS →
      emitsFor (processTick s t).2 name = false) := by
  constructor
  · intro s t l1 l2 hE hz hc hcool1 hcool2 ha1 ha2 hb1 hb2
    have e1 := checkCross_emits_above t.symbol "Zero Gamma" s.prevSpot t.spotPrice
      l1 t.now s.lastTriggered hcool1 ha1 ha2
    have hlook : ((("Zero Gamma", t.now) :: s.lastTriggered).lookup "Call Wall") =
        s.lastTriggered.lookup "Call Wall" := lookup_cons_other (by decide) _ _
    have e2 := checkCross_emits_above t.symbol "Call Wall" s.prevSpot t.spotPrice
      l2 t.now (("Zero Gamma", t.now) :: s.lastTriggered)
      (by rw [hlook]; exact hcool2) hb1 hb2
    constructor <;>
    · simp only [processTick, hE, Bool.not_true, Bool.false_eq_true, if_false,
        hz, hc, e1, e2]
      simp [emitsFor]
  · intro s t name t0 hlook hlt
    cases hem : emitsFor (processTick s t).2 name with
    | false => rfl
    | true =>
      exfalso
      have h2 := (processTick_emits hem).1
      rw [hlook] at h2
      simp only [Option.getD_some] at h2
      linarith

/-- Witness for C7 (amended) on concrete inputs: both levels emit on one
tick, and a recent Zero Gamma trigger suppresses the next crossing. -/
theorem cooldown_per_level_independence_witness :
    (tickBothLevels.alertsEnabled = true ∧
     tickBothLevels.zeroGamma = some 101 ∧
     tickBothLevels.callWall = some 103 ∧
     ALERT_COOLDOWN_MS ≤ tickBothLevels.now -
       ((stateFresh.lastTriggered.lookup "Zero Gamma").getD 0) ∧
     ALERT_COOLDOWN_MS ≤ tickBothLevels.now -
       ((stateFresh.lastTriggered.lookup "Call Wall").getD 0) ∧
     stateFresh.prevSpot < 101 ∧ (101 : ℚ) ≤ tickBothLevels.spotPrice ∧
     stateFresh.prevSpot < 103 ∧ (103 : ℚ) ≤ tickBothLevels.spotPrice ∧
     (emitsFor (processTick stateFresh tickBothLevels).2 "Zero Gamma" = true ∧
      emitsFor (processTick stateFresh tickBothLevels).2 "Call Wall" = true)) ∧
    (stateRecentTrigger.lastTriggered.lookup "Zero Gamma" = some 900000 ∧
     tickInCooldown.now - 900000 < ALERT_COOLDOWN_MS ∧
     emitsFor (processTick stateRecentTrigger tickInCooldown).2 "Zero Gamma" = false) :=
  ⟨⟨by decide, by decide, by decide, by decide, by decide, by decide, by decide,
    by decide, by decide,
    cooldown_per_level_independence.1 stateFresh tickBothLevels 101 103
      (by decide) (by decide) (by decide) (by decide) (by decide) (by decide)
      (by decide) (by decide) (by decide)⟩,
   ⟨by decide, by decide,
    cooldown_per_level_independence.2 stateRecentTrigger tickInCooldown
      "Zero Gamma" 900000 (by decide) (by decide)⟩⟩

/-- C4 counterexample: the lowercase string mean_reversion is outside the
closed enumeration, yet none of the four lookup functions throws on it: the
input is normalized to uppercase and accepted. -/
theorem lowercase_signal_not_rejected_cex :
    isValidSignal "mean_reversion" = false ∧
    throwsError (getTradingApproach (SignalInput.strVal "mean_reversion")) = false ∧
    throwsError (getRiskGuidance (SignalInput.strVal "mean_reversion")) = false ∧
    throwsError (getTimeHorizon (SignalInput.strVal "mean_reversion")) = false ∧
    throwsError (getAllGuidance (SignalInput.strVal "mean_reversion")) = false := by
  decide

/-- C4 (amended): each of the four lookup functions throws exactly on the
inputs whose uppercase normalization is outside the enumeration, which
includes the empty string, null, and undefined; every member of the
enumeration is accepted without throwing. -/
theorem signal_lookup_strictness :
    (∀ signal : SignalInput,
      throwsError (getTradingApproach signal) = !acceptedSignal signal ∧
      throwsError (getRiskGuidance signal) = !acceptedSignal signal ∧
      throwsError (getTimeHorizon signal) = !acceptedSignal signal ∧
      throwsError (getAllGuidance signal) = !acceptedSignal signal) ∧
    acceptedSignal (SignalInput.strVal "MEAN_REVERSION") = true ∧
    acceptedSignal (SignalInput.strVal "ACCELERATION") = true ∧
    acceptedSignal (SignalInput.strVal "MAGNET_PIN") = true ∧
    acceptedSignal (SignalInput.strVal "") = false ∧
    acceptedSignal SignalInput.nullVal = false ∧
    acceptedSignal SignalInput.undefVal = false := by
  refine ⟨fun signal => ?_, by decide, by decide, by decide, by decide, rfl, rfl⟩
  have h1 : throwsError (getTradingApproach signal) = !acceptedSignal signal :=
    throws_shape _ _ _ signal
  have h2 : throwsError (getRiskGuidance signal) = !acceptedSignal signal :=
    throws_shape _ _ _ signal
  have h3 : throwsError (getTimeHorizon signal) = !acceptedSignal signal :=
    throws_shape _ _ _ signal
  refine ⟨h1, h2, h3, ?_⟩
  cases ha : acceptedSignal signal with
  | false =>
    rw [ha] at h1
    obtain ⟨e, he⟩ := error_of_throws h1
    simp [getAllGuidance, he, throwsError, Bind.bind, Except.bind]
  | true =>
    rw [ha] at h1 h2 h3
    obtain ⟨a, hea⟩ := ok_of_not_throws h1
    obtain ⟨r, her⟩ := ok_of_not_throws h2
    obtain ⟨t, het⟩ := ok_of_not_throws h3
    simp [getAllGuidance, hea, her, het, throwsError, Bind.bind, Except.bind]

/-- Witness for C4 (amended) at a concrete rejected input. -/
theorem signal_lookup_strictness_witness :
    throwsError (getTradingApproach (SignalInput.strVal "bogus")) =
      !acceptedSignal (SignalInput.strVal "bogus") ∧
    throwsError (getRiskGuidance (SignalInput.strVal "bogus")) =
      !acceptedSignal (SignalInput.strVal "bogus") ∧
    throwsError (getTimeHorizon (SignalInput.strVal "bogus")) =
      !acceptedSignal (SignalInput.strVal "bogus") ∧
    throwsError (getAllGuidance (SignalInput.strVal "bogus")) =
      !acceptedSignal (SignalInput.strVal "bogus") :=
  signal_lookup_strictness.1 (SignalInput.strVal "bogus")

/-- C8 counterexample: with both walls defined and equal to 0 the put wall
is at or above the call wall, yet isValidWallConfig is true because a
zero-valued wall counts as absent. -/
theorem zero_wall_config_cex :
    ((0 : ℚ) ≤ 0) ∧ isValidWallConfig (some 0) (some 0) = true := by
  decide

/-- C8 (amended): for nonzero defined walls the validity predicate is false
exactly when the put wall is at or above the call wall; a false verdict only
ever arises from such a pair; and the expected-range band is rendered only
when the predicate is true. The embedded render decision is a total
function, so no exception is involved. -/
theorem invalid_wall_band_behavior :
    (∀ c p : ℚ, c ≠ 0 → p ≠ 0 →
      ((isValidWallConfig (some c) (some p) = false) ↔ c ≤ p)) ∧
    (∀ cw pw : Option ℚ, isValidWallConfig cw pw = false →
      jsFalsyNum cw = false ∧ jsFalsyNum pw = false ∧ (cw.getD 0) ≤ (pw.getD 0)) ∧
    (∀ cw pw : Option ℚ, renderExpectedRange cw pw = true →
      isValidWallConfig cw pw = true) := by
  refine ⟨fun c p hc hp => ?_, fun cw pw h => ?_, fun cw pw h => ?_⟩
  · have hcb : ((c : ℚ) == 0) = false := beq_eq_false_iff_ne.mpr hc
    have hpb : ((p : ℚ) == 0) = false := beq_eq_false_iff_ne.mpr hp
    simp [isValidWallConfig, jsFalsyNum, hcb, hpb, not_lt]
  · cases hcw : jsFalsyNum cw with
    | true => simp [isValidWallConfig, hcw] at h
    | false =>
      cases hpw : jsFalsyNum pw with
      | true => simp [isValidWallConfig, hcw, hpw] at h
      | false =>
        refine ⟨rfl, rfl, ?_⟩
        simp only [isValidWallConfig, hcw, hpw, Bool.or_self, Bool.false_eq_true,
          if_false, decide_eq_false_iff_not, not_lt] at h
        exact h
  · simp only [renderExpectedRange, Bool.and_eq_true] at h
    exact h.1.1

/-- Witness for C8 (amended) on concrete walls. -/
theorem invalid_wall_band_behavior_witness :
    ((470 : ℚ) ≠ 0 ∧ (470 : ℚ) ≠ 0 ∧
      ((isValidWallConfig (some 470) (some 470) = false) ↔ (470 : ℚ) ≤ 470)) ∧
    (isValidWallConfig (some 470) (some 480) = false ∧
      (jsFalsyNum (some 470) = false ∧ jsFalsyNum (some 480) = false ∧
        ((some (470 : ℚ)).getD 0) ≤ ((some (480 : ℚ)).getD 0))) ∧
    (renderExpectedRange (some 470) (some 450) = true ∧
      isValidWallConfig (some 470) (some 450) = true) :=
  ⟨⟨by decide, by decide, invalid_wall_band_behavior.1 470 470 (by decide) (by decide)⟩,
   ⟨by decide, invalid_wall_band_behavior.2.1 (some 470) (some 480) (by decide)⟩,
   ⟨by decide, invalid_wall_band_behavior.2.2 (some 470) (some 450) (by decide)⟩⟩

/-- C9: each lookup function returns the same guidance for the lowercase
form of every enumeration member as for the canonical uppercase value. -/
theorem lowercase_uppercase_guidance_agree :
    getTradingApproach (SignalInput.strVal "mean_reversion") =
      getTradingApproach (SignalInput.strVal "MEAN_REVERSION") ∧
    getTradingApproach (SignalInput.strVal "acceleration") =
      getTradingApproach (SignalInput.strVal "ACCELERATION") ∧
    getTradingApproach (SignalInput.strVal "magnet_pin") =
      getTradingApproach (SignalInput.strVal "MAGNET_PIN") ∧
    getRiskGuidance (SignalInput.strVal "mean_reversion") =
      getRiskGuidance (SignalInput.strVal "MEAN_REVERSION") ∧
    getRiskGuidance (SignalInput.strVal "acceleration") =
      getRiskGuidance (SignalInput.strVal "ACCELERATION") ∧
    getRiskGuidance (SignalInput.strVal "magnet_pin") =
      getRiskGuidance (SignalInput.strVal "MAGNET_PIN") ∧
    getTimeHorizon (SignalInput.strVal "mean_reversion") =
      getTimeHorizon (SignalInput.strVal "MEAN_REVERSION") ∧
    getTimeHorizon (SignalInput.strVal "acceleration") =
      getTimeHorizon (SignalInput.strVal "ACCELERATION") ∧
    getTimeHorizon (SignalInput.strVal "magnet_pin") =
      getTimeHorizon (SignalInput.strVal "MAGNET_PIN") := by
  decide

/-- C10: the wall-validity predicate is true whenever either wall is falsy
(undefined, null, or exactly 0), and false only for a pair of defined,
nonzero walls with the put wall at or above the call wall. -/
theorem wall_validity_truthiness :
    (∀ cw pw : Option ℚ, (jsFalsyNum cw || jsFalsyNum pw) = true →
      isValidWallConfig cw pw = true) ∧
    (∀ cw pw : Option ℚ, isValidWallConfig cw pw = false →
      ∃ c p : ℚ, cw = some c ∧ pw = some p ∧ c ≠ 0 ∧ p ≠ 0 ∧ c ≤ p) ∧
    (isValidWallConfig none (some 450) = true ∧
     isValidWallConfig (some 0) (some 450) = true ∧
     isValidWallConfig (some 470) (some 0) = true ∧
     isValidWallConfig (some 470) none = true) := by
  refine ⟨fun cw pw h => by simp [isValidWallConfig, h], fun cw pw h => ?_, by decide⟩
  cases cw with
  | none => simp [isValidWallConfig, jsFalsyNum] at h
  | some c =>
    cases pw with
    | none => simp [isValidWallConfig, jsFalsyNum] at h
    | some p =>
      cases hcb : ((c : ℚ) == 0) with
      | true => simp [isValidWallConfig, jsFalsyNum, hcb] at h
      | false =>
        cases hpb : ((p : ℚ) == 0) with
        | true => simp [isValidWallConfig, jsFalsyNum, hpb] at h
        | false =>
          refine ⟨c, p, rfl, rfl, beq_eq_false_iff_ne.mp hcb,
            beq_eq_false_iff_ne.mp hpb, ?_⟩
          simp only [isValidWallConfig, jsFalsyNum, hcb, hpb, Bool.or_self,
            Bool.false_eq_true, if_false, decide_eq_false_iff_not, not_lt,
            Option.getD_some] at h
          exact h

/-- Witness for C10: a falsy wall validates, and an inverted nonzero pair is
the only source of a false verdict. -/
theorem wall_validity_truthiness_witness :
    ((jsFalsyNum (some 0) || jsFalsyNum (some 450)) = true ∧
      isValidWallConfig (some 0) (some 450) = true) ∧
    (isValidWallConfig (some 470) (some 480) = false ∧
      ∃ c p : ℚ, some (470 : ℚ) = some c ∧ some (480 : ℚ) = some p ∧
        c ≠ 0 ∧ p ≠ 0 ∧ c ≤ p) :=
  ⟨⟨by decide, wall_validity_truthiness.1 (some 0) (some 450) (by decide)⟩,
   ⟨by decide, wall_validity_truthiness.2.1 (some 470) (some 480) (by decide)⟩⟩


end GexApp
